import Mathlib

/-!
Verification of the two-phase research-agent repository.

The repository consists of several near-duplicate variants of the same
pipeline: a clarification step that turns a user dialogue into a research
brief, a routing function that decides between the "clarify" and "research"
phases, and a tool-calling research loop that performs web searches and
drafts a report.

Strings are modelled as lists of characters (`Str`) so that Python substring
containment (`in`), slicing (`[:n]`) and join (`"\n".join`) are directly
available as `List` operations.  Python values with truthiness semantics are
modelled by `PyVal`; optional dictionary entries (TypedDict fields read via
`state.get`) are modelled by `Option`.  Fallible calls into external services
(model completions, search) are modelled by explicit outcome parameters of
type `Except`, so that every embedded function is total and the control flow
on the error path is visible in the definition.
-/

/-- Strings as lists of characters. -/
abbrev Str := List Char

/-- Coerce a Lean string literal into the character-list model. -/
def str (x : String) : Str := x.toList

/-- A Python value that may be stored in a boolean-ish state field such as
`clarification_complete`: a real boolean, a string sentinel, or `None`. -/
inductive PyVal
  | bool (b : Bool)
  | str (x : Str)
  | pynone
deriving DecidableEq, Repr

/-- Python truthiness of a `PyVal`: `bool b` is `b`, a string is truthy iff
non-empty, `None` is falsy. -/
def PyVal.truthy : PyVal → Bool
  | .bool b => b
  | .str x => !x.isEmpty
  | .pynone => false

/-! ## Routing (src/research_agent/graph.py, src/agent.py, src/graph.py) -/

/-- The routing-relevant projection of the workflow state.  Both fields are
read with `state.get(..., default)` in the source, hence `Option`. -/
structure RouteState where
  clarification_complete : Option PyVal := Option.none
  current_step : Option Str := Option.none
deriving DecidableEq, Repr

/-- Model of `should_continue_to_research` (src/research_agent/graph.py, lines 8-12):
`if state.get("clarification_complete", False): return "research"`,
`return "clarify"`. -/
def should_continue_to_research (state : RouteState) : Str :=
  if (state.clarification_complete.getD (.bool false)).truthy then str "research"
  else str "clarify"

/-- Model of `should_continue` (src/agent.py, lines 245-249):
`if state.get("clarification_complete", False): return "research_agent"`,
`return "end"`. -/
def should_continue (state : RouteState) : Str :=
  if (state.clarification_complete.getD (.bool false)).truthy then str "research_agent"
  else str "end"

/-- Model of `route_next_step` (src/graph.py, lines 15-28): reads
`current_step = state.get("current_step", "clarification")` and
`clarification_complete = state.get("clarification_complete", False)`, then
routes `"end"` on `"completed"`/`"error"`, `"research"` when the flag is
truthy and the step is not `"completed"`, and `"clarification"` otherwise. -/
def route_next_step (state : RouteState) : Str :=
  let current_step := state.current_step.getD (str "clarification")
  let clarification_complete := (state.clarification_complete.getD (.bool false)).truthy
  if current_step = str "completed" then str "end"
  else if current_step = str "error" then str "end"
  else if clarification_complete = true ∧ current_step ≠ str "completed" then str "research"
  else str "clarification"

/-- C1 (counterexample): the claim quantifies over every state value of the
routing input, but `route_next_step` — one of the routing functions the claim
covers — returns `"end"`, not `"research"`, on a state whose
clarification-completion flag is truthy once `current_step` is `"completed"`;
nor does it return the clarify branch there. -/
theorem c1_counterexample :
    (RouteState.mk (some (PyVal.bool true)) (some (str "completed"))).clarification_complete
        = some (PyVal.bool true) ∧
    (PyVal.bool true).truthy = true ∧
    route_next_step (RouteState.mk (some (PyVal.bool true)) (some (str "completed"))) = str "end" ∧
    route_next_step (RouteState.mk (some (PyVal.bool true)) (some (str "completed"))) ≠ str "research" ∧
    route_next_step (RouteState.mk (some (PyVal.bool true)) (some (str "completed"))) ≠ str "clarify" ∧
    route_next_step (RouteState.mk (some (PyVal.bool true)) (some (str "completed"))) ≠ str "clarification" := by
  refine ⟨rfl, rfl, ?_, ?_, ?_, ?_⟩ <;> decide

/-- C1 (amended): `should_continue_to_research` returns `"research"` iff the
flag stored in `clarification_complete` is truthy and `"clarify"` otherwise,
for every state value; string sentinels route by truthiness, so `"YES"`,
`"y"`, `"no thanks"` and every non-empty string select research, while
`false`, absent and `""` select clarify.  `should_continue` likewise returns
its research branch (`"research_agent"`) iff the flag is truthy.
`route_next_step` satisfies the iff only on states whose `current_step` is
neither `"completed"` nor `"error"`; on those terminal values it returns
`"end"` regardless of the flag. -/
theorem c1_routing_truthiness :
    (∀ state : RouteState,
      should_continue_to_research state =
        (if (state.clarification_complete.getD (.bool false)).truthy then str "research"
         else str "clarify")) ∧
    (∀ state : RouteState,
      should_continue state =
        (if (state.clarification_complete.getD (.bool false)).truthy then str "research_agent"
         else str "end")) ∧
    (∀ state : RouteState,
      state.current_step.getD (str "clarification") ≠ str "completed" →
      state.current_step.getD (str "clarification") ≠ str "error" →
      (route_next_step state = str "research" ↔
        (state.clarification_complete.getD (.bool false)).truthy = true)) ∧
    (∀ state : RouteState,
      state.current_step.getD (str "clarification") = str "completed" ∨
      state.current_step.getD (str "clarification") = str "error" →
      route_next_step state = str "end") ∧
    (∀ x : Str, x ≠ [] →
      should_continue_to_research ⟨some (PyVal.str x), Option.none⟩ = str "research") ∧
    should_continue_to_research ⟨some (PyVal.str (str "YES")), Option.none⟩ = str "research" ∧
    should_continue_to_research ⟨some (PyVal.str (str "y")), Option.none⟩ = str "research" ∧
    should_continue_to_research ⟨some (PyVal.str (str "no thanks")), Option.none⟩ = str "research" ∧
    should_continue_to_research ⟨some (PyVal.str (str "")), Option.none⟩ = str "clarify" ∧
    should_continue_to_research ⟨some (PyVal.bool false), Option.none⟩ = str "clarify" ∧
    should_continue_to_research ⟨Option.none, Option.none⟩ = str "clarify" := by
  refine ⟨?_, ?_, ?_, ?_, ?_, by decide, by decide, by decide, by decide, by decide, by decide⟩
  · intro state; rfl
  · intro state; rfl
  · intro state h1 h2
    simp only [route_next_step, if_neg h1, if_neg h2]
    constructor
    · intro h
      by_contra hf
      simp only [eq_self_iff_true] at h
      rw [if_neg] at h
      · exact absurd h (by decide)
      · intro hc; exact hf hc.1
    · intro h
      rw [if_pos ⟨h, h1⟩]
  · intro state h
    rcases h with h | h
    · simp only [route_next_step, if_pos h]
    · simp only [route_next_step]
      by_cases hc : state.current_step.getD (str "clarification") = str "completed"
      · rw [if_pos hc]
      · rw [if_neg hc, if_pos h]
  · intro x hx
    simp only [should_continue_to_research, Option.getD_some, PyVal.truthy]
    rw [if_pos]
    simp [List.isEmpty_iff, hx]

/-- C1 (witness): the amended routing facts applied at concrete states. -/
theorem c1_routing_truthiness_witness :
    (route_next_step ⟨some (PyVal.bool true), some (str "clarification")⟩ = str "research" ↔
      ((some (PyVal.bool true)).getD (.bool false)).truthy = true) ∧
    should_continue_to_research ⟨some (PyVal.str (str "ok")), Option.none⟩ = str "research" :=
  ⟨c1_routing_truthiness.2.2.1 ⟨some (PyVal.bool true), some (str "clarification")⟩
      (by decide) (by decide),
   c1_routing_truthiness.2.2.2.2.1 (str "ok") (by decide)⟩

/-! ## Search-result formatting (src/tools.py) -/

/-- Python's `sep.join(xs)`. -/
def joinSep (sep : Str) : List Str → Str
  | [] => []
  | [x] => x
  | x :: y :: rest => x ++ sep ++ joinSep sep (y :: rest)

/-- Model of `"\n".join(xs)`. -/
def joinNL (xs : List Str) : Str := joinSep (str "\n") xs

/-- A Tavily search-result dictionary as consumed by `format_search_results`;
each field is read with `result.get(key, default)`, hence `Option`. -/
structure TavilyResult where
  title : Option Str := Option.none
  url : Option Str := Option.none
  content : Option Str := Option.none
deriving DecidableEq, Repr

/-- The lines appended for the `i`-th result (1-based) in
`format_search_results` (src/tools.py, lines 37-42): header, title, URL, the
content sliced with `[:500]` followed by `"..."`, and a blank line. -/
def formatResultLines (i : Nat) (r : TavilyResult) : List Str :=
  [ str "Result " ++ str (toString i) ++ str ":",
    str "  Title: " ++ r.title.getD (str "No title"),
    str "  URL: " ++ r.url.getD (str "No URL"),
    str "  Content: " ++ (r.content.getD (str "No content")).take 500 ++ str "...",
    str "" ]

/-- The flat list built by `enumerate(results, 1)` and the per-result
appends. -/
def formatAllLines : Nat → List TavilyResult → List Str
  | _, [] => []
  | i, r :: rs => formatResultLines i r ++ formatAllLines (i + 1) rs

/-- Model of `format_search_results` (src/tools.py, lines 23-44): `"No search results
found."` on an empty list, otherwise the newline-join of the per-result
lines. -/
def format_search_results (results : List TavilyResult) : Str :=
  if results.isEmpty then str "No search results found."
  else joinNL (formatAllLines 1 results)

/-- An infix of the right factor is an infix of the concatenation. -/
theorem infix_cat_left {α : Type} {x b : List α} (a : List α) (h : x <:+: b) :
    x <:+: a ++ b := by
  obtain ⟨u, v, huv⟩ := h
  exact ⟨a ++ u, v, by rw [← huv]; simp [List.append_assoc]⟩

/-- An infix of the left factor is an infix of the concatenation. -/
theorem infix_cat_right {α : Type} {x a : List α} (b : List α) (h : x <:+: a) :
    x <:+: a ++ b := by
  obtain ⟨u, v, huv⟩ := h
  exact ⟨u, v ++ b, by rw [← huv]; simp [List.append_assoc]⟩

/-- An element of a joined list is an infix of the join. -/
theorem infix_of_mem_joinSep (sep : Str) {x : Str} :
    ∀ {xs : List Str}, x ∈ xs → x <:+: joinSep sep xs := by
  intro xs
  induction xs with
  | nil => intro h; cases h
  | cons y rest ih =>
    intro h
    cases rest with
    | nil =>
      rcases List.mem_singleton.mp h with rfl
      exact List.infix_refl x
    | cons z rest' =>
      rcases List.mem_cons.mp h with rfl | h'
      · show x <:+: x ++ sep ++ joinSep sep (z :: rest')
        exact ⟨[], sep ++ joinSep sep (z :: rest'), by simp [List.append_assoc]⟩
      · show x <:+: y ++ sep ++ joinSep sep (z :: rest')
        exact infix_cat_left _ (ih h')

/-- An infix of a middle factor is an infix of the whole concatenation. -/
theorem infix_of_middle {α : Type} {x m : List α} (a b : List α) (h : x <:+: m) :
    x <:+: a ++ m ++ b := by
  obtain ⟨u, v, huv⟩ := h
  exact ⟨a ++ u, v ++ b, by rw [← huv]; simp [List.append_assoc]⟩

/-- The content line of a listed result appears among the formatted lines,
for every starting index. -/
theorem contentLine_mem_formatAllLines {r : TavilyResult} :
    ∀ {results : List TavilyResult} (i : Nat), r ∈ results →
      (str "  Content: " ++ (r.content.getD (str "No content")).take 500 ++ str "...")
        ∈ formatAllLines i results := by
  intro results
  induction results with
  | nil => intro i h; cases h
  | cons a rest ih =>
    intro i h
    rcases List.mem_cons.mp h with rfl | h'
    · simp [formatAllLines, formatResultLines]
    · exact List.mem_append_right _ (ih (i + 1) h')

/-! ## Research briefs and prompts (src/agents/clarification_agent.py,
src/agents/react_agent.py) -/

/-- A role-tagged conversation message. -/
structure Msg where
  role : Str
  content : Str
deriving DecidableEq, Repr

/-- Model of `ResearchBrief` (src/agents/clarification_agent.py, lines 7-12). -/
structure ResearchBrief where
  topic : Str
  objectives : List Str
  scope : Str
  key_questions : List Str
  constraints : List Str
deriving DecidableEq, Repr

/-- Model of `ResearchState` (src/agents/react_agent.py, lines 12-16); the
`research_brief` key is read with `state.get` in `_create_system_prompt`,
hence `Option`. -/
structure ReactResearchState where
  messages : List Msg
  research_brief : Option ResearchBrief := Option.none
  research_report : Option Str := Option.none
deriving DecidableEq, Repr

/-- Model of `', '.join(xs)`. -/
def joinComma (xs : List Str) : Str := joinSep (str ", ") xs

/-- The system prompt rendered by
`ReactResearchAgent._create_system_prompt` (src/agents/react_agent.py,
lines 44-66): an f-string over the brief whose objective, key-question and
constraint lists are rendered with `chr(10).join(f"- {x}" ...)`, the
constraints falling back to `"None"` when the list is empty. -/
def systemPromptText (rb : ResearchBrief) : Str :=
  str "You are an expert research agent conducting deep research based on the following brief:\n\n**Topic:** "
    ++ rb.topic
    ++ str "\n\n**Objectives:**\n"
    ++ joinNL (rb.objectives.map (fun o => str "- " ++ o))
    ++ str "\n\n**Scope:** "
    ++ rb.scope
    ++ str "\n\n**Key Questions to Answer:**\n"
    ++ joinNL (rb.key_questions.map (fun q => str "- " ++ q))
    ++ str "\n\n**Constraints:**\n"
    ++ (if rb.constraints.isEmpty then str "None"
        else joinNL (rb.constraints.map (fun c => str "- " ++ c)))
    ++ str "\n\nYour task is to:\n1. Use the Tavily search tool to gather comprehensive information\n2. Search for multiple perspectives and sources\n3. Verify facts across multiple sources when possible\n4. Focus on answering the key questions thoroughly\n5. Stay within the defined scope and constraints\n\nConduct multiple searches as needed to gather comprehensive information. Think step by step about what information you need and search strategically."

/-- Model of `ReactResearchAgent._create_system_prompt` (src/agents/react_agent.py,
lines 38-68): returns `state["messages"]` unchanged when no brief is set,
otherwise prepends a system message carrying the rendered prompt. -/
def create_system_prompt (state : ReactResearchState) : List Msg :=
  match state.research_brief with
  | Option.none => state.messages
  | some rb => Msg.mk (str "system") (systemPromptText rb) :: state.messages

/-- The report prompt rendered by `ReactResearchAgent.generate_report`
(src/agents/react_agent.py, lines 105-120): an f-string whose brief-reminder
section interpolates the topic and the comma-joins of the objectives and key
questions, untruncated. -/
def reportPromptText (rb : ResearchBrief) : Str :=
  str "Based on all the research conducted, generate a comprehensive and detailed report.\n\nThe report should:\n1. Begin with an executive summary\n2. Address each objective from the research brief\n3. Answer all key questions thoroughly\n4. Include relevant findings and insights\n5. Cite sources where appropriate\n6. End with conclusions and recommendations\n\nResearch Brief Reminder:\n- Topic: "
    ++ rb.topic
    ++ str "\n- Objectives: "
    ++ joinComma rb.objectives
    ++ str "\n- Key Questions: "
    ++ joinComma rb.key_questions
    ++ str "\n\nFormat the report with clear headings and subheadings using markdown."

/-- Model of `ReactResearchAgent.generate_report` (src/agents/react_agent.py, lines
101-130): appends the report prompt to the accumulated research messages,
obtains the model's response (passed here as the `response` outcome of the
external call), and returns the state with the report set and the prompt and
response appended.  `state["research_brief"]` is a direct subscript, so a
missing brief is a `KeyError`, modelled by `Option.none`. -/
def generate_report (state : ReactResearchState) (response : Str) :
    Option ReactResearchState :=
  match state.research_brief with
  | Option.none => Option.none
  | some rb =>
      some { state with
        research_report := some response,
        messages := state.messages
          ++ [Msg.mk (str "human") (reportPromptText rb), Msg.mk (str "ai") response] }

/-- C2: display truncation is not data loss.  For every search-result list,
any listed result whose content body is at most the 500-character threshold
appears verbatim (as a contiguous substring) in the string produced by
`format_search_results` — the `[:500]` slice removes nothing from such
bodies even though that string is tool data consumed by the model.  Report
assembly concatenates brief and findings without truncation:
`generate_report` passes every prior message through unchanged and appends a
prompt that interpolates the full topic verbatim. -/
theorem c2_format_preserves_short_content :
    (∀ (results : List TavilyResult) (r : TavilyResult) (c : Str),
      r ∈ results → r.content = some c → c.length ≤ 500 →
      c <:+: format_search_results results) ∧
    (∀ rb : ResearchBrief, rb.topic <:+: reportPromptText rb) ∧
    (∀ (state : ReactResearchState) (rb : ResearchBrief) (response : Str),
      state.research_brief = some rb →
      generate_report state response =
        some { state with
          research_report := some response,
          messages := state.messages
            ++ [Msg.mk (str "human") (reportPromptText rb), Msg.mk (str "ai") response] }) := by
  refine ⟨?_, ?_, ?_⟩
  · intro results r c hmem hcontent hlen
    have hne : results.isEmpty = false := by
      cases results with
      | nil => cases hmem
      | cons a rest => rfl
    have hline :
        (str "  Content: " ++ (r.content.getD (str "No content")).take 500 ++ str "...")
          ∈ formatAllLines 1 results := contentLine_mem_formatAllLines 1 hmem
    have hinfix1 :
        c <:+: str "  Content: " ++ (r.content.getD (str "No content")).take 500 ++ str "..." := by
      rw [hcontent, Option.getD_some, List.take_of_length_le hlen]
      exact infix_of_middle _ _ (List.infix_refl c)
    have hinfix2 := hinfix1.trans (infix_of_mem_joinSep (str "\n") hline)
    simpa [format_search_results, hne, joinNL] using hinfix2
  · intro rb
    exact infix_cat_right _ (infix_cat_right _ (infix_cat_right _ (infix_cat_right _
      (infix_cat_right _ (infix_cat_left _ (List.infix_refl rb.topic))))))
  · intro state rb response h
    simp [generate_report, h]

/-- C2 (witness): a concrete result list with a short body, whose content is
preserved verbatim by `format_search_results`. -/
theorem c2_format_preserves_short_content_witness :
    str "short body" <:+:
      format_search_results
        [TavilyResult.mk (some (str "T")) (some (str "http://x")) (some (str "short body"))] :=
  c2_format_preserves_short_content.1
    [TavilyResult.mk (some (str "T")) (some (str "http://x")) (some (str "short body"))]
    (TavilyResult.mk (some (str "T")) (some (str "http://x")) (some (str "short body")))
    (str "short body") (by decide) rfl (by decide)

/-- C4: for every research brief, every one of its key questions appears
verbatim (as a contiguous substring) in the system prompt rendered for the
research agent by `_create_system_prompt`, with no bound on the number of
questions. -/
theorem c4_prompt_contains_all_key_questions :
    ∀ (state : ReactResearchState) (rb : ResearchBrief) (q : Str),
      state.research_brief = some rb → q ∈ rb.key_questions →
      create_system_prompt state =
        Msg.mk (str "system") (systemPromptText rb) :: state.messages ∧
      q <:+: systemPromptText rb := by
  intro state rb q hbrief hq
  constructor
  · simp [create_system_prompt, hbrief]
  · have h1 : q <:+: str "- " ++ q := infix_cat_left _ (List.infix_refl q)
    have h2 : (str "- " ++ q) ∈ rb.key_questions.map (fun x => str "- " ++ x) :=
      List.mem_map_of_mem _ hq
    have h3 := h1.trans (infix_of_mem_joinSep (str "\n") h2)
    exact infix_cat_right _ (infix_cat_right _ (infix_cat_right _ (infix_cat_left _ h3)))

/-- C4 (witness): a brief with four key questions, whose fourth question
appears verbatim in the rendered prompt. -/
theorem c4_prompt_contains_all_key_questions_witness :
    create_system_prompt
        (ReactResearchState.mk []
          (some (ResearchBrief.mk (str "AI") [str "o1"] (str "broad")
            [str "q1", str "q2", str "q3", str "q4?"] []))
          Option.none) =
      Msg.mk (str "system")
        (systemPromptText
          (ResearchBrief.mk (str "AI") [str "o1"] (str "broad")
            [str "q1", str "q2", str "q3", str "q4?"] [])) :: [] ∧
    str "q4?" <:+:
      systemPromptText
        (ResearchBrief.mk (str "AI") [str "o1"] (str "broad")
          [str "q1", str "q2", str "q3", str "q4?"] []) :=
  c4_prompt_contains_all_key_questions
    (ReactResearchState.mk []
      (some (ResearchBrief.mk (str "AI") [str "o1"] (str "broad")
        [str "q1", str "q2", str "q3", str "q4?"] []))
      Option.none)
    (ResearchBrief.mk (str "AI") [str "o1"] (str "broad")
      [str "q1", str "q2", str "q3", str "q4?"] [])
    (str "q4?") rfl (by decide)

/-! ## Tavily search wrapper (src/research_agent/tools.py) -/

/-- A raw result dictionary as returned by the external search API; every
field is read with `result.get(key, default)`, hence `Option`.  Relevance
scores are only passed through, never computed with, so their JSON literal
text stands in for the float value. -/
structure RawSearchResult where
  title : Option Str := Option.none
  url : Option Str := Option.none
  content : Option Str := Option.none
  score : Option Str := Option.none
deriving DecidableEq, Repr

/-- The raw response of `self.client.search`. -/
structure RawSearchResponse where
  answer : Option Str := Option.none
  results : List RawSearchResult := []
deriving DecidableEq, Repr

/-- One formatted entry of the dictionary built by `search_web`. -/
structure FormattedResult where
  title : Str
  url : Str
  content : Str
  score : Str
deriving DecidableEq, Repr

/-- The dictionary returned by `search_web`: the success shape carries
`query`/`answer`/`results`, the exception shape carries
`error`/`query`/`results` (and no `answer` key). -/
structure SearchPayload where
  error : Option Str := Option.none
  query : Str
  answer : Option Str := Option.none
  results : List FormattedResult := []
deriving DecidableEq, Repr

/-- Model of `TavilySearchTool.search_web` (src/research_agent/tools.py, lines
11-53).  The outcome of the underlying `self.client.search` call is passed
in as an `Except`: `.error e` models the call raising an exception with
message `e`.  The `try`/`except` converts that exception into an error
payload with an empty result list; on success each raw result is projected
onto title/url/content/score with empty-string (or `0`) defaults. -/
def search_web (query : Str) (clientOutcome : Except Str RawSearchResponse) :
    SearchPayload :=
  match clientOutcome with
  | Except.ok results =>
      { query := query,
        answer := some (results.answer.getD (str "")),
        results := results.results.map (fun r =>
          FormattedResult.mk (r.title.getD (str "")) (r.url.getD (str ""))
            (r.content.getD (str "")) (r.score.getD (str "0"))),
        error := Option.none }
  | Except.error e =>
      { error := some (str "Search failed: " ++ e),
        query := query,
        answer := Option.none,
        results := [] }

/-! ## ReAct research loop (src/research_agent/react_agent.py,
src/research_agent/state.py) -/

/-- A tool call requested by the model, together with the outcome of
executing `tavily_tool.invoke(tool_call["args"])` for it: `.ok payload` when
the invocation returns, `.error e` when it raises. -/
structure ToolCall where
  id : Str
  query : Str
  result : Except Str SearchPayload

/-- One message of the research loop's transcript: the initial human task,
AI responses possibly carrying tool calls, and tool results. -/
inductive LoopMsg
  | human (content : Str)
  | ai (content : Str) (tool_calls : List ToolCall)
  | tool (content : Str) (tool_call_id : Str)

/-- One model completion: `response.content` and `response.tool_calls`. -/
structure ModelResponse where
  content : Str
  tool_calls : List ToolCall

/-- A stand-in for `json.dumps(tool_result, indent=2)`: a canonical
field-order rendering of the payload (the claims never inspect the exact
whitespace of the serializer, only the error path's string). -/
def json_dumps (p : SearchPayload) : Str :=
  str "\x7b\x22error\x22: " ++ (p.error.map (fun e => str "\x22" ++ e ++ str "\x22")).getD (str "null")
    ++ str ", \x22query\x22: \x22" ++ p.query
    ++ str "\x22, \x22answer\x22: " ++ (p.answer.map (fun a => str "\x22" ++ a ++ str "\x22")).getD (str "null")
    ++ str ", \x22results\x22: ["
    ++ joinComma (p.results.map (fun r =>
        str "\x7b\x22title\x22: \x22" ++ r.title ++ str "\x22, \x22url\x22: \x22" ++ r.url
          ++ str "\x22, \x22content\x22: \x22" ++ r.content ++ str "\x22, \x22score\x22: "
          ++ r.score ++ str "\x7d"))
    ++ str "]\x7d"

/-- The `ToolMessage` appended for one tool call (src/research_agent/
react_agent.py, lines 55-71): the serialized result on success, the caught
exception rendered as `"Error executing search: {e}"` on failure. -/
def execToolMessage (tc : ToolCall) : LoopMsg :=
  match tc.result with
  | Except.ok payload => LoopMsg.tool (json_dumps payload) tc.id
  | Except.error e => LoopMsg.tool (str "Error executing search: " ++ e) tc.id

/-- Model of `ReactAgent.max_iterations` (src/research_agent/react_agent.py, line
15). -/
def max_iterations : Nat := 10

/-- The `while iteration < self.max_iterations` loop of `conduct_research`
(src/research_agent/react_agent.py, lines 41-75), with the model's responses
supplied by `oracle` as a function of the message list passed to
`self.llm.invoke`.  Returns the final iteration counter and the accumulated
messages; the fuel argument is `max_iterations - iteration`. -/
def researchLoop (oracle : List LoopMsg → ModelResponse) :
    Nat → Nat → List LoopMsg → Nat × List LoopMsg
  | 0, iteration, messages => (iteration, messages)
  | fuel + 1, iteration, messages =>
      let response := oracle messages
      let messages' := messages ++ [LoopMsg.ai response.content response.tool_calls]
      if response.tool_calls.isEmpty then (iteration + 1, messages')
      else researchLoop oracle fuel (iteration + 1)
        (messages' ++ response.tool_calls.map execToolMessage)

/-- Model of `ResearchState` (src/research_agent/state.py, lines 6-10): messages
under the `add_messages` reducer, the brief, the completion flag and the
final report.  `conduct_research` reads the brief with `state.get`, hence
`Option`. -/
structure LoopResearchState where
  messages : List LoopMsg := []
  research_brief : Option Str := Option.none
  clarification_complete : Bool := false
  final_report : Option Str := Option.none

/-- The partial state dictionary returned by `conduct_research`: only the
keys present in the returned dict are set. -/
structure ResearchUpdate where
  final_report : Option Str := Option.none
  messages : Option (List LoopMsg) := Option.none

/-- The initial task prompt of `conduct_research`
(src/research_agent/react_agent.py, lines 27-39). -/
def researchTaskPrompt (research_brief : Str) : Str :=
  str "You are a thorough research agent. Your task is to conduct comprehensive research based on this brief:\n\n"
    ++ research_brief
    ++ str "\n\nUse the search tool to gather information. Think step by step:\n1. Identify key search queries needed to address the research brief\n2. Search for information using the available tools\n3. Analyze and synthesize the findings\n4. Generate a comprehensive report\n\nStart by planning your research approach and then execute the searches."

/-- The closing report request appended after the loop
(src/research_agent/react_agent.py, line 78). -/
def finalReportPrompt : Str :=
  str "Based on all the research you\x27ve conducted, please generate a comprehensive final report that addresses the research brief. The report should be well-structured, include key findings, insights, and conclusions. Make it detailed and informative."

/-- Model of `ReactAgent.conduct_research` (src/research_agent/react_agent.py, lines
17-91), returning the loop's final iteration counter alongside the state
update.  An empty or missing brief short-circuits to
`{"final_report": "No research brief provided"}` before any model call;
otherwise the tool loop runs and one more completion produces the report. -/
def conduct_research_run (state : LoopResearchState)
    (oracle : List LoopMsg → ModelResponse) : Nat × ResearchUpdate :=
  if (state.research_brief.getD []).isEmpty then
    (0, { final_report := some (str "No research brief provided") })
  else
    let research_brief := state.research_brief.getD []
    let messages0 := [LoopMsg.human (researchTaskPrompt research_brief)]
    let run := researchLoop oracle max_iterations 0 messages0
    let final_response := oracle (run.2 ++ [LoopMsg.human finalReportPrompt])
    (run.1,
      { final_report := some final_response.content,
        messages := some [LoopMsg.ai
          (str "Research completed. Final report: " ++ final_response.content) []] })

/-- The state update returned by `conduct_research`. -/
def conduct_research (state : LoopResearchState)
    (oracle : List LoopMsg → ModelResponse) : ResearchUpdate :=
  (conduct_research_run state oracle).2

/-- Applying a `conduct_research` update to the state: `final_report` is a
plain field, so a present key replaces it; `messages` carries the
`add_messages` reducer (src/research_agent/state.py, line 7), so returned
messages are appended to the existing transcript. -/
def applyResearchUpdate (state : LoopResearchState) (u : ResearchUpdate) :
    LoopResearchState :=
  { state with
    final_report := match u.final_report with
      | some r => some r
      | Option.none => state.final_report,
    messages := state.messages ++ u.messages.getD [] }

/-- The loop's iteration counter grows by at most the remaining fuel. -/
theorem researchLoop_iterations_le (oracle : List LoopMsg → ModelResponse) :
    ∀ (fuel iteration : Nat) (messages : List LoopMsg),
      (researchLoop oracle fuel iteration messages).1 ≤ iteration + fuel := by
  intro fuel
  induction fuel with
  | zero => intro iteration messages; simp [researchLoop]
  | succ k ih =>
    intro iteration messages
    simp only [researchLoop]
    by_cases h : (oracle messages).tool_calls.isEmpty
    · simp only [h, if_true]
      omega
    · simp only [h, if_false]
      calc (researchLoop oracle k (iteration + 1) _).1 ≤ (iteration + 1) + k := ih _ _
        _ = iteration + (k + 1) := by omega

/-- The loop only ever appends to the transcript it is given. -/
theorem researchLoop_extends (oracle : List LoopMsg → ModelResponse) :
    ∀ (fuel iteration : Nat) (messages : List LoopMsg),
      messages <+: (researchLoop oracle fuel iteration messages).2 := by
  intro fuel
  induction fuel with
  | zero => intro iteration messages; simp [researchLoop]
  | succ k ih =>
    intro iteration messages
    simp only [researchLoop]
    by_cases h : (oracle messages).tool_calls.isEmpty
    · simp only [h, if_true]
      exact List.prefix_append _ _
    · simp only [h, if_false]
      refine List.IsPrefix.trans ?_ (ih _ _)
      exact ((List.prefix_append _ _).trans (List.prefix_append _ _))

/-- The research step always produces a report. -/
theorem conduct_research_report_isSome (state : LoopResearchState)
    (oracle : List LoopMsg → ModelResponse) :
    (conduct_research state oracle).final_report.isSome = true := by
  unfold conduct_research conduct_research_run
  by_cases h : (state.research_brief.getD []).isEmpty <;> simp [h]

/-- C9: the research tool-calling loop always terminates.  The embedded
`conduct_research` is a total function; for every input state and every
oracle of model responses (whether or not the model ever stops requesting
tool calls) the loop counter never exceeds `max_iterations = 10`, and a
final report is produced. -/
theorem c9_loop_iterations_bounded :
    max_iterations = 10 ∧
    ∀ (state : LoopResearchState) (oracle : List LoopMsg → ModelResponse),
      (conduct_research_run state oracle).1 ≤ max_iterations ∧
      (conduct_research state oracle).final_report.isSome = true := by
  refine ⟨rfl, ?_⟩
  intro state oracle
  refine ⟨?_, conduct_research_report_isSome state oracle⟩
  unfold conduct_research_run
  by_cases h : (state.research_brief.getD []).isEmpty
  · simp [h]
  · simp only [h, if_false]
    simpa using researchLoop_iterations_le oracle max_iterations 0 _

/-! ## ResearchAgent variant (src/research_agent.py) -/

/-- Model of `ResearchBrief` (src/research_agent.py, lines 20-26). -/
structure RABrief where
  topic : Str
  scope : Str
  specific_questions : List Str
  key_areas : List Str
  constraints : Option Str := Option.none
deriving DecidableEq, Repr

/-- The fields of `AgentState` (src/research_agent.py, lines 29-35) touched
by `ResearchAgent.__call__`. -/
structure RAState where
  messages : List Msg := []
  research_brief : Option RABrief := Option.none
  clarification_complete : Bool := false
  final_report : Option Str := Option.none
  current_phase : Str := str "clarification"
deriving DecidableEq, Repr

/-- Model of `ResearchAgent.__call__` (src/research_agent.py, lines 127-164): with no
brief the state is returned unchanged; otherwise the external ReAct agent's
resulting message list (passed here as `reactMessages`) supplies the final
report, which is recorded together with a `"Research Complete"` assistant
message, and an empty result list leaves the state unchanged. -/
def researchAgentCall (state : RAState) (reactMessages : List Msg) : RAState :=
  match state.research_brief with
  | Option.none => state
  | some _ =>
      match reactMessages.getLast? with
      | Option.none => state
      | some finalMsg =>
          { state with
            final_report := some finalMsg.content,
            current_phase := str "complete",
            messages := state.messages
              ++ [Msg.mk (str "ai") (str "Research Complete:\n\n" ++ finalMsg.content)] }

/-- C10: a missing or empty research brief short-circuits the research step.
`conduct_research` returns, for every oracle, exactly the update
`{"final_report": "No research brief provided"}` — the messages key is
absent, so every other state field is untouched — and the `ResearchAgent`
variant returns its state unchanged when the brief is `None`. -/
theorem c10_empty_brief_short_circuit :
    (∀ (state : LoopResearchState) (oracle : List LoopMsg → ModelResponse),
      state.research_brief = Option.none ∨ state.research_brief = some [] →
      conduct_research state oracle =
        { final_report := some (str "No research brief provided"),
          messages := Option.none } ∧
      applyResearchUpdate state (conduct_research state oracle) =
        { state with final_report := some (str "No research brief provided") }) ∧
    (∀ (state : RAState) (reactMessages : List Msg),
      state.research_brief = Option.none →
      researchAgentCall state reactMessages = state) := by
  constructor
  · intro state oracle h
    have hbrief : (state.research_brief.getD []).isEmpty = true := by
      rcases h with h | h <;> simp [h]
    have hupd : conduct_research state oracle =
        { final_report := some (str "No research brief provided"),
          messages := Option.none } := by
      unfold conduct_research conduct_research_run
      simp [hbrief]
    refine ⟨hupd, ?_⟩
    rw [hupd]
    simp [applyResearchUpdate]
  · intro state reactMessages h
    unfold researchAgentCall
    rw [h]

/-- C10 (witness): concrete states with an empty and a missing brief,
short-circuited by both variants. -/
theorem c10_empty_brief_short_circuit_witness :
    (conduct_research (LoopResearchState.mk [] (some []) false Option.none)
        (fun _ => ModelResponse.mk (str "report") []) =
      { final_report := some (str "No research brief provided"),
        messages := Option.none } ∧
      applyResearchUpdate (LoopResearchState.mk [] (some []) false Option.none)
        (conduct_research (LoopResearchState.mk [] (some []) false Option.none)
          (fun _ => ModelResponse.mk (str "report") [])) =
        { LoopResearchState.mk [] (some []) false Option.none with
          final_report := some (str "No research brief provided") }) ∧
    researchAgentCall (RAState.mk [] Option.none false Option.none (str "research"))
        [Msg.mk (str "ai") (str "done")] =
      RAState.mk [] Option.none false Option.none (str "research") :=
  ⟨c10_empty_brief_short_circuit.1
      (LoopResearchState.mk [] (some []) false Option.none)
      (fun _ => ModelResponse.mk (str "report") []) (Or.inr rfl),
   c10_empty_brief_short_circuit.2
      (RAState.mk [] Option.none false Option.none (str "research"))
      [Msg.mk (str "ai") (str "done")] rfl⟩

/-- C5: a failed search is caught, never propagated.  `search_web` converts
an exception of the underlying client call into an error payload
(`"Search failed: ..."`, empty result list) instead of a typed failure; the
research loop converts an exception of a tool invocation into an
`"Error executing search: ..."` tool message inserted into the conversation;
and when the model's response requests such a failing call the loop
continues — the error message is in the transcript and the step still
produces a final report for every oracle. -/
theorem c5_search_failure_becomes_error_string :
    (∀ (query e : Str),
      search_web query (Except.error e) =
        { error := some (str "Search failed: " ++ e),
          query := query,
          answer := Option.none,
          results := [] }) ∧
    (∀ (tc : ToolCall) (e : Str), tc.result = Except.error e →
      execToolMessage tc = LoopMsg.tool (str "Error executing search: " ++ e) tc.id) ∧
    (∀ (oracle : List LoopMsg → ModelResponse) (fuel iteration : Nat)
        (messages : List LoopMsg) (tc : ToolCall) (e : Str),
      fuel ≠ 0 → (oracle messages).tool_calls = [tc] → tc.result = Except.error e →
      LoopMsg.tool (str "Error executing search: " ++ e) tc.id
        ∈ (researchLoop oracle fuel iteration messages).2) ∧
    (∀ (state : LoopResearchState) (oracle : List LoopMsg → ModelResponse),
      (conduct_research state oracle).final_report.isSome = true) := by
  refine ⟨?_, ?_, ?_, conduct_research_report_isSome⟩
  · intro query e
    rfl
  · intro tc e h
    unfold execToolMessage
    rw [h]
  · intro oracle fuel iteration messages tc e hfuel hcalls herr
    cases fuel with
    | zero => exact absurd rfl hfuel
    | succ k =>
      have hmsg : execToolMessage tc =
          LoopMsg.tool (str "Error executing search: " ++ e) tc.id := by
        unfold execToolMessage; rw [herr]
      have hnonempty : (oracle messages).tool_calls.isEmpty = false := by
        rw [hcalls]; rfl
      have hstep : researchLoop oracle (k + 1) iteration messages =
          researchLoop oracle k (iteration + 1)
            ((messages ++ [LoopMsg.ai (oracle messages).content (oracle messages).tool_calls])
              ++ (oracle messages).tool_calls.map execToolMessage) := by
        simp only [researchLoop, hnonempty]
        rfl
      rw [hstep]
      have hmem : LoopMsg.tool (str "Error executing search: " ++ e) tc.id
          ∈ (messages ++ [LoopMsg.ai (oracle messages).content (oracle messages).tool_calls])
            ++ (oracle messages).tool_calls.map execToolMessage := by
        rw [hcalls]
        refine List.mem_append_right _ ?_
        rw [← hmsg]
        exact List.mem_map_of_mem _ (List.mem_singleton_self tc)
      obtain ⟨rest, hrest⟩ := researchLoop_extends oracle k (iteration + 1)
        ((messages ++ [LoopMsg.ai (oracle messages).content (oracle messages).tool_calls])
          ++ (oracle messages).tool_calls.map execToolMessage)
      rw [← hrest]
      exact List.mem_append_left _ hmem

/-- C5 (witness): a concrete failing tool call, converted into the error
payload by `search_web` and into an error tool message by the loop. -/
theorem c5_search_failure_becomes_error_string_witness :
    search_web (str "lean 4") (Except.error (str "timeout")) =
      { error := some (str "Search failed: " ++ str "timeout"),
        query := str "lean 4",
        answer := Option.none,
        results := [] } ∧
    execToolMessage (ToolCall.mk (str "call_1") (str "lean 4") (Except.error (str "boom"))) =
      LoopMsg.tool (str "Error executing search: " ++ str "boom") (str "call_1") :=
  ⟨c5_search_failure_becomes_error_string.1 (str "lean 4") (str "timeout"),
   c5_search_failure_becomes_error_string.2.1
     (ToolCall.mk (str "call_1") (str "lean 4") (Except.error (str "boom"))) (str "boom") rfl⟩

/-! ## Clarification agent (src/clarification_agent.py, src/state.py) -/

/-- Model of `ResearchBrief` (src/state.py, lines 5-9). -/
structure SCBrief where
  topic : Str
  specific_questions : List Str
  scope : Str
  output_requirements : Str
deriving DecidableEq, Repr

/-- Model of `AgentState` (src/state.py, lines 12-18).  `search_results`
entries are uninterpreted dictionaries, carried as opaque strings. -/
structure CAState where
  messages : List Msg := []
  research_brief : Option SCBrief := Option.none
  current_phase : Str := str "clarification"
  research_report : Option Str := Option.none
  search_results : List Str := []
  clarification_complete : Bool := false
deriving DecidableEq, Repr

/-- The partial state dictionary returned by `ClarificationAgent.__call__`;
`some` marks a key present in the returned dict. -/
structure CAUpdate where
  messages : Option (List Msg) := Option.none
  research_brief : Option SCBrief := Option.none
  current_phase : Option Str := Option.none
  clarification_complete : Option Bool := Option.none
deriving DecidableEq, Repr

/-- Merging an update into the state.  `AgentState` declares no reducers, so
present keys replace the old values and absent keys leave them unchanged. -/
def applyCAUpdate (state : CAState) (u : CAUpdate) : CAState :=
  { state with
    messages := u.messages.getD state.messages,
    research_brief := match u.research_brief with
      | some b => some b
      | Option.none => state.research_brief,
    current_phase := u.current_phase.getD state.current_phase,
    clarification_complete := u.clarification_complete.getD state.clarification_complete }

/-- The canned greeting of `ClarificationAgent.__call__`
(src/clarification_agent.py, lines 47-54). -/
def caGreetingText : Str :=
  str "Hello! I\x27m here to help you with your research. What topic would you like me to research for you?"

/-- The confirmation message built on a successfully parsed brief
(src/clarification_agent.py, lines 84-92). -/
def caSuccessText (rb : SCBrief) : Str :=
  str "Great! I have all the information I need. Here\x27s the research brief:\n\n**Topic:** "
    ++ rb.topic
    ++ str "\n**Questions:** " ++ joinComma rb.specific_questions
    ++ str "\n**Scope:** " ++ rb.scope
    ++ str "\n**Output Requirements:** " ++ rb.output_requirements
    ++ str "\n\nStarting the research now..."

/-- The update equivalent of `return state`: every key of the state is
present in the returned dict. -/
def caFullState (state : CAState) : CAUpdate :=
  { messages := some state.messages,
    research_brief := state.research_brief,
    current_phase := some state.current_phase,
    clarification_complete := some state.clarification_complete }

/-- Model of `ClarificationAgent.__call__` (src/clarification_agent.py,
lines 44-108).  `response_content` is the content of the clarification
completion returned by the model; `briefResult` is the outcome of
`json.loads` plus `ResearchBrief(**brief_data)` on the extraction call,
`.error e` modelling the caught exception.  The second component is the
list of lines printed (the `except` branch logs the parse error and falls
through to the plain-response return). -/
def clarificationCall (state : CAState) (response_content : Str)
    (briefResult : Except Str SCBrief) : CAUpdate × List Str :=
  if state.messages.isEmpty then
    ({ messages := some [Msg.mk (str "assistant") caGreetingText],
       current_phase := some (str "clarification") }, [])
  else
    match state.messages.getLast? with
    | Option.none => (caFullState state, [])
    | some last_message =>
      if last_message.role = str "user" then
        if str "CLARIFICATION_COMPLETE" <:+: response_content then
          match briefResult with
          | Except.ok research_brief =>
              ({ messages := some (state.messages
                   ++ [Msg.mk (str "assistant") (caSuccessText research_brief)]),
                 research_brief := some research_brief,
                 current_phase := some (str "research"),
                 clarification_complete := some true }, [])
          | Except.error e =>
              ({ messages := some (state.messages
                   ++ [Msg.mk (str "assistant") response_content]),
                 current_phase := some (str "clarification") },
               [str "Error parsing brief: " ++ e])
        else
          ({ messages := some (state.messages
               ++ [Msg.mk (str "assistant") response_content]),
             current_phase := some (str "clarification") }, [])
      else (caFullState state, [])

/-- C6: a parse failure during brief extraction is caught and logged, and
only drops the extracted brief.  When the last message is from the user and
the model has signalled `CLARIFICATION_COMPLETE` but the extracted JSON
fails to parse, the step logs `"Error parsing brief: ..."`, returns an
update that does not set `research_brief` nor `clarification_complete`
(so the flag keeps its prior value — `false` during clarification), keeps
`current_phase` at `"clarification"`, and leaves the rest of the state
intact apart from appending the assistant's reply. -/
theorem c6_parse_failure_drops_brief :
    ∀ (state : CAState) (last : Msg) (response e : Str),
      state.messages.getLast? = some last →
      last.role = str "user" →
      str "CLARIFICATION_COMPLETE" <:+: response →
      (clarificationCall state response (Except.error e)).1.research_brief = Option.none ∧
      (clarificationCall state response (Except.error e)).1.clarification_complete = Option.none ∧
      (clarificationCall state response (Except.error e)).1.messages =
        some (state.messages ++ [Msg.mk (str "assistant") response]) ∧
      (clarificationCall state response (Except.error e)).1.current_phase =
        some (str "clarification") ∧
      (clarificationCall state response (Except.error e)).2 =
        [str "Error parsing brief: " ++ e] ∧
      (applyCAUpdate state (clarificationCall state response (Except.error e)).1).research_brief
        = state.research_brief ∧
      (applyCAUpdate state (clarificationCall state response (Except.error e)).1).clarification_complete
        = state.clarification_complete ∧
      (applyCAUpdate state (clarificationCall state response (Except.error e)).1).research_report
        = state.research_report ∧
      (applyCAUpdate state (clarificationCall state response (Except.error e)).1).search_results
        = state.search_results := by
  intro state last response e hlast hrole hinfix
  have hne : state.messages.isEmpty = false := by
    cases hm : state.messages with
    | nil => rw [hm] at hlast; cases hlast
    | cons a rest => rfl
  have hcall : clarificationCall state response (Except.error e) =
      ({ messages := some (state.messages ++ [Msg.mk (str "assistant") response]),
         current_phase := some (str "clarification") },
       [str "Error parsing brief: " ++ e]) := by
    unfold clarificationCall
    rw [if_neg (by simp [hne]), hlast]
    simp only [hrole, if_pos rfl, if_pos hinfix]
    simp
  rw [hcall]
  refine ⟨rfl, rfl, rfl, rfl, rfl, rfl, rfl, rfl, rfl⟩

/-- C6 (witness): a concrete clarification state in which the extraction
raises, leaving the brief unset and the flag false. -/
theorem c6_parse_failure_drops_brief_witness :
    (clarificationCall (CAState.mk [Msg.mk (str "user") (str "go ahead")] Option.none
        (str "clarification") Option.none [] false)
      (str "CLARIFICATION_COMPLETE done") (Except.error (str "bad json"))).1.research_brief
      = Option.none ∧
    (clarificationCall (CAState.mk [Msg.mk (str "user") (str "go ahead")] Option.none
        (str "clarification") Option.none [] false)
      (str "CLARIFICATION_COMPLETE done") (Except.error (str "bad json"))).1.clarification_complete
      = Option.none ∧
    (clarificationCall (CAState.mk [Msg.mk (str "user") (str "go ahead")] Option.none
        (str "clarification") Option.none [] false)
      (str "CLARIFICATION_COMPLETE done") (Except.error (str "bad json"))).1.messages
      = some ([Msg.mk (str "user") (str "go ahead")]
          ++ [Msg.mk (str "assistant") (str "CLARIFICATION_COMPLETE done")]) ∧
    (clarificationCall (CAState.mk [Msg.mk (str "user") (str "go ahead")] Option.none
        (str "clarification") Option.none [] false)
      (str "CLARIFICATION_COMPLETE done") (Except.error (str "bad json"))).1.current_phase
      = some (str "clarification") ∧
    (clarificationCall (CAState.mk [Msg.mk (str "user") (str "go ahead")] Option.none
        (str "clarification") Option.none [] false)
      (str "CLARIFICATION_COMPLETE done") (Except.error (str "bad json"))).2
      = [str "Error parsing brief: " ++ str "bad json"] := by
  have h := c6_parse_failure_drops_brief
    (CAState.mk [Msg.mk (str "user") (str "go ahead")] Option.none
      (str "clarification") Option.none [] false)
    (Msg.mk (str "user") (str "go ahead"))
    (str "CLARIFICATION_COMPLETE done") (str "bad json") rfl rfl (by decide)
  exact ⟨h.1, h.2.1, h.2.2.1, h.2.2.2.1, h.2.2.2.2.1⟩

/-! ## Clarification agent, second variant
(src/agents/clarification_agent.py) -/

/-- Model of `ClarificationState` (src/agents/clarification_agent.py, lines
15-19); `clarification_count` is read with `state.get(..., 0)`, hence
`Option`. -/
structure ClarificationState where
  messages : List Msg := []
  research_brief : Option ResearchBrief := Option.none
  is_clarified : Bool := false
  clarification_count : Option Nat := Option.none
deriving DecidableEq, Repr

/-- The system prompt of `get_initial_prompt`
(src/agents/clarification_agent.py, lines 27-36). -/
def initialClarificationPrompt : Str :=
  str "You are a research assistant helping to clarify the scope of a research project.\n        Your goal is to understand:\n        1. The main topic to research\n        2. Specific objectives and goals\n        3. The scope and boundaries\n        4. Key questions to answer\n        5. Any constraints or limitations\n        \n        Ask clarifying questions to gather this information. Be conversational but focused."

/-- The canned greeting emitted on the first clarification round
(src/agents/clarification_agent.py, line 46). -/
def askGreetingText : Str :=
  str "Hello! I\x27m here to help you with your research. Could you please tell me what topic you\x27d like me to research?"

/-- Model of `ClarificationAgent.ask_clarification`
(src/agents/clarification_agent.py, lines 38-57): an empty transcript is
seeded with the system prompt; on count zero the canned greeting is
appended, otherwise the model's reply (`llmResponse`); the count is
incremented. -/
def ask_clarification (state : ClarificationState) (llmResponse : Str) :
    ClarificationState :=
  let clarification_count := state.clarification_count.getD 0
  let messages :=
    if state.messages.isEmpty then [Msg.mk (str "system") initialClarificationPrompt]
    else state.messages
  let response :=
    if clarification_count = 0 then Msg.mk (str "ai") askGreetingText
    else Msg.mk (str "ai") llmResponse
  { state with
    messages := messages ++ [response],
    clarification_count := some (clarification_count + 1) }

/-- C8: a session with zero prior messages always yields the canned
greeting, never an empty response.  `ClarificationAgent.__call__` on an
empty transcript returns exactly the greeting message (non-empty content,
non-empty message list), for every model response and parse outcome; and
`ask_clarification` on a fresh state (empty transcript, no clarification
count yet) appends the canned greeting after the seeded system prompt,
regardless of the model's reply. -/
theorem c8_empty_session_greets :
    (∀ (state : CAState) (response : Str) (briefResult : Except Str SCBrief),
      state.messages = [] →
      (clarificationCall state response briefResult).1.messages =
        some [Msg.mk (str "assistant") caGreetingText] ∧
      caGreetingText ≠ [] ∧
      some [Msg.mk (str "assistant") caGreetingText] ≠ some ([] : List Msg)) ∧
    (∀ (state : ClarificationState) (llmResponse : Str),
      state.messages = [] →
      state.clarification_count = Option.none →
      (ask_clarification state llmResponse).messages =
        [Msg.mk (str "system") initialClarificationPrompt,
         Msg.mk (str "ai") askGreetingText] ∧
      askGreetingText ≠ [] ∧
      (ask_clarification state llmResponse).messages ≠ []) := by
  constructor
  · intro state response briefResult hempty
    refine ⟨?_, by decide, by simp⟩
    unfold clarificationCall
    rw [if_pos (by simp [hempty])]
  · intro state llmResponse hempty hcount
    refine ⟨?_, by decide, ?_⟩
    · unfold ask_clarification
      rw [hcount, hempty]
      rfl
    · unfold ask_clarification
      rw [hcount, hempty]
      simp

/-- C8 (witness): the two clarification variants applied to concrete empty
sessions. -/
theorem c8_empty_session_greets_witness :
    ((clarificationCall (CAState.mk [] Option.none (str "clarification") Option.none [] false)
        (str "anything") (Except.error (str "ignored"))).1.messages =
      some [Msg.mk (str "assistant") caGreetingText] ∧
      caGreetingText ≠ [] ∧
      some [Msg.mk (str "assistant") caGreetingText] ≠ some ([] : List Msg)) ∧
    ((ask_clarification (ClarificationState.mk [] Option.none false Option.none)
        (str "ignored")).messages =
      [Msg.mk (str "system") initialClarificationPrompt,
       Msg.mk (str "ai") askGreetingText] ∧
      askGreetingText ≠ [] ∧
      (ask_clarification (ClarificationState.mk [] Option.none false Option.none)
        (str "ignored")).messages ≠ []) :=
  ⟨c8_empty_session_greets.1
      (CAState.mk [] Option.none (str "clarification") Option.none [] false)
      (str "anything") (Except.error (str "ignored")) rfl,
   c8_empty_session_greets.2
      (ClarificationState.mk [] Option.none false Option.none)
      (str "ignored") rfl rfl⟩

/-! ## Remaining workflow nodes (src/research_agent.py,
src/research_agent/clarification_agent.py) -/

/-- Python's `s.lower()`. -/
def pyLower (x : Str) : Str := x.map Char.toLower

/-- Model of `ClarificationAgent.__call__` (src/research_agent.py, lines
62-88): the model's reply is appended to `state["messages"]` in place and
the mutated state is returned; when the reply contains
`CLARIFICATION_COMPLETE`, the structured brief (`briefResult`, the outcome
of the structured-output call) is recorded and the phase advances. -/
def raClarificationCall (state : RAState) (responseContent : Str)
    (briefResult : RABrief) : RAState :=
  let state1 := { state with
    messages := state.messages ++ [Msg.mk (str "ai") responseContent] }
  if str "CLARIFICATION_COMPLETE" <:+: responseContent then
    { state1 with
      research_brief := some briefResult,
      clarification_complete := true,
      current_phase := str "research" }
  else state1

/-- Merging a node's returned state into the prior state for
`AgentState` (src/research_agent.py, line 31), whose `messages` carries the
`operator.add` reducer: returned messages are concatenated onto the old
transcript, the other returned fields replace. -/
def applyRAReturn (state returned : RAState) : RAState :=
  { returned with messages := state.messages ++ returned.messages }

/-- The partial state dictionary returned by
`ClarificationAgent.clarify_research_scope`
(src/research_agent/clarification_agent.py). -/
structure ClarifyUpdate where
  research_brief : Option Str := Option.none
  clarification_complete : Option Bool := Option.none
  messages : Option (List LoopMsg) := Option.none

/-- Merging a `ClarifyUpdate` into `ResearchState`
(src/research_agent/state.py): `messages` has the `add_messages` reducer,
the other keys replace when present. -/
def applyClarifyUpdate (state : LoopResearchState) (u : ClarifyUpdate) :
    LoopResearchState :=
  { state with
    research_brief := match u.research_brief with
      | some b => some b
      | Option.none => state.research_brief,
    clarification_complete :=
      u.clarification_complete.getD state.clarification_complete,
    messages := state.messages ++ u.messages.getD [] }

/-- Model of one attempt of `ClarificationAgent.clarify_research_scope`
(src/research_agent/clarification_agent.py, lines 15-52): with the flag
already set it returns `{"clarification_complete": True}`; otherwise
`research_brief` is the brief generated from the dialogue and
`confirmation` the user's answer to the accuracy prompt — `yes`/`y`
(case-insensitively) accepts and returns the brief update, any other answer
makes the method recurse for another attempt, modelled as `Option.none`. -/
def clarify_research_scope_step (state : LoopResearchState)
    (research_brief : Str) (confirmation : Str) : Option ClarifyUpdate :=
  if state.clarification_complete then
    some { clarification_complete := some true }
  else if pyLower confirmation = str "yes" ∨ pyLower confirmation = str "y" then
    some { research_brief := some research_brief,
           clarification_complete := some true,
           messages := some [LoopMsg.ai
             (str "Research brief created: " ++ research_brief) []] }
  else Option.none

/-- C7: the conversation transcript is append-only.  For every embedded
node of the workflow and every input, the messages of the state after the
node's update is merged have the previous messages as a prefix, unchanged
and in order, with zero or more role-tagged messages appended: this holds
for `ClarificationAgent.__call__` of src/clarification_agent.py (plain
replacement semantics, the node itself re-appends the old list), for
`conduct_research` and `clarify_research_scope` under the `add_messages`
reducer, for `ClarificationAgent.__call__` and `ResearchAgent.__call__` of
src/research_agent.py under the `operator.add` reducer, for
`ask_clarification`, and for `generate_report`. -/
theorem c7_transcript_append_only :
    (∀ (state : CAState) (response : Str) (briefResult : Except Str SCBrief),
      state.messages <+:
        (applyCAUpdate state (clarificationCall state response briefResult).1).messages) ∧
    (∀ (state : LoopResearchState) (oracle : List LoopMsg → ModelResponse),
      state.messages <+:
        (applyResearchUpdate state (conduct_research state oracle)).messages) ∧
    (∀ (state : LoopResearchState) (research_brief confirmation : Str)
        (u : ClarifyUpdate),
      clarify_research_scope_step state research_brief confirmation = some u →
      state.messages <+: (applyClarifyUpdate state u).messages) ∧
    (∀ (state : RAState) (responseContent : Str) (briefResult : RABrief),
      state.messages <+:
        (applyRAReturn state (raClarificationCall state responseContent briefResult)).messages) ∧
    (∀ (state : RAState) (reactMessages : List Msg),
      state.messages <+: (researchAgentCall state reactMessages).messages) ∧
    (∀ (state : ClarificationState) (llmResponse : Str),
      state.messages = [] ∨ state.messages <+: (ask_clarification state llmResponse).messages) ∧
    (∀ (state : ReactResearchState) (response : Str) (state' : ReactResearchState),
      generate_report state response = some state' →
      state.messages <+: state'.messages) := by
  refine ⟨?_, ?_, ?_, ?_, ?_, ?_, ?_⟩
  · intro state response briefResult
    unfold clarificationCall
    by_cases hempty : state.messages.isEmpty
    · rw [if_pos hempty]
      have : state.messages = [] := by
        cases hm : state.messages with
        | nil => rfl
        | cons a rest => rw [hm] at hempty; cases hempty
      rw [this]
      exact List.nil_prefix
    · rw [if_neg hempty]
      cases hlast : state.messages.getLast? with
      | none => simp [applyCAUpdate, caFullState]
      | some last_message =>
        dsimp only
        by_cases hrole : last_message.role = str "user"
        · rw [if_pos hrole]
          by_cases hinfix : str "CLARIFICATION_COMPLETE" <:+: response
          · rw [if_pos hinfix]
            cases briefResult with
            | ok rb => simp [applyCAUpdate]
            | error e => simp [applyCAUpdate]
          · rw [if_neg hinfix]
            simp [applyCAUpdate]
        · rw [if_neg hrole]
          simp [applyCAUpdate, caFullState]
  · intro state oracle
    simp only [applyResearchUpdate]
    exact List.prefix_append _ _
  · intro state research_brief confirmation u hu
    simp only [applyClarifyUpdate]
    exact List.prefix_append _ _
  · intro state responseContent briefResult
    unfold raClarificationCall applyRAReturn
    by_cases h : str "CLARIFICATION_COMPLETE" <:+: responseContent
    · rw [if_pos h]
      exact List.prefix_append _ _
    · rw [if_neg h]
      exact List.prefix_append _ _
  · intro state reactMessages
    unfold researchAgentCall
    cases state.research_brief with
    | none => exact List.prefix_refl _
    | some rb =>
      cases reactMessages.getLast? with
      | none => exact List.prefix_refl _
      | some finalMsg => exact List.prefix_append _ _
  · intro state llmResponse
    by_cases hempty : state.messages.isEmpty
    · left
      cases hm : state.messages with
      | nil => rfl
      | cons a rest => rw [hm] at hempty; cases hempty
    · right
      unfold ask_clarification
      simp only [hempty, if_false]
      exact List.prefix_append _ _
  · intro state response state' hgen
    unfold generate_report at hgen
    cases hb : state.research_brief with
    | none => rw [hb] at hgen; cases hgen
    | some rb =>
      rw [hb] at hgen
      cases hgen
      exact List.prefix_append _ _

/-- C7 (witness): the hypothesis-bearing conjuncts applied to concrete
inputs — an accepted clarification attempt and a concrete report
generation, both of which extend the prior transcript. -/
theorem c7_transcript_append_only_witness :
    ([LoopMsg.human (str "hi")] <+:
      (applyClarifyUpdate
        (LoopResearchState.mk [LoopMsg.human (str "hi")] Option.none false Option.none)
        (ClarifyUpdate.mk (some (str "brief")) (some true)
          (some [LoopMsg.ai (str "Research brief created: " ++ str "brief") []]))).messages) ∧
    ([Msg.mk (str "human") (str "hi")] <+:
      (ReactResearchState.mk
        ([Msg.mk (str "human") (str "hi")]
          ++ [Msg.mk (str "human")
                (reportPromptText (ResearchBrief.mk (str "t") [] (str "s") [] [])),
              Msg.mk (str "ai") (str "report")])
        (some (ResearchBrief.mk (str "t") [] (str "s") [] []))
        (some (str "report"))).messages) :=
  ⟨c7_transcript_append_only.2.2.1
      (LoopResearchState.mk [LoopMsg.human (str "hi")] Option.none false Option.none)
      (str "brief") (str "YES")
      (ClarifyUpdate.mk (some (str "brief")) (some true)
        (some [LoopMsg.ai (str "Research brief created: " ++ str "brief") []]))
      rfl,
   c7_transcript_append_only.2.2.2.2.2.2
      (ReactResearchState.mk [Msg.mk (str "human") (str "hi")]
        (some (ResearchBrief.mk (str "t") [] (str "s") [] []))
        Option.none)
      (str "report")
      (ReactResearchState.mk
        ([Msg.mk (str "human") (str "hi")]
          ++ [Msg.mk (str "human")
                (reportPromptText (ResearchBrief.mk (str "t") [] (str "s") [] [])),
              Msg.mk (str "ai") (str "report")])
        (some (ResearchBrief.mk (str "t") [] (str "s") [] []))
        (some (str "report")))
      rfl⟩

/-! ## Startup environment check (src/run_agent.py,
src/research_agent/graph.py, src/research_agent/tools.py) -/

/-- An observable event of program startup: construction of an API client
that requires a key, the environment check over the required variables, a
printed line, or an outbound network call. -/
inductive StartupEvent
  | constructClient (name : Str)
  | envCheck (missing : List Str)
  | printLine (text : Str)
  | networkCall (target : Str)
deriving DecidableEq, Repr

/-- The events triggered by `from research_agent.graph import graph`
(src/run_agent.py, line 14): importing `research_agent.react_agent` runs
the module-level `tavily_tool = TavilySearchTool().search_web`
(src/research_agent/tools.py, line 56), constructing a `TavilyClient`; then
the module-level `graph = create_research_graph()`
(src/research_agent/graph.py, line 46) constructs `ClarificationAgent()`
and `ReactAgent()`, each building a `ChatAnthropic` client
(src/research_agent/clarification_agent.py, lines 9-13;
src/research_agent/react_agent.py, lines 10-14). -/
def importGraphEvents : List StartupEvent :=
  [ StartupEvent.constructClient (str "TavilyClient"),
    StartupEvent.constructClient (str "ChatAnthropic"),
    StartupEvent.constructClient (str "ChatAnthropic") ]

/-- Model of `required_keys` (src/run_agent.py, line 20). -/
def required_keys : List Str := [str "ANTHROPIC_API_KEY", str "TAVILY_API_KEY"]

/-- Model of `missing_keys = [key for key in required_keys if not
os.getenv(key)]` (src/run_agent.py, line 21): a key is missing when the
variable is unset or empty. -/
def missing_keys (env : Str → Option Str) : List Str :=
  required_keys.filter (fun k => ((env k).getD []).isEmpty)

/-- The events of `main()` (src/run_agent.py, lines 17-62): the check, then
on any missing key the itemized error report and return; otherwise the
banner and the graph invocation (a network call). -/
def mainEvents (env : Str → Option Str) : List StartupEvent :=
  StartupEvent.envCheck (missing_keys env) ::
  (if (missing_keys env).isEmpty then
    [ StartupEvent.printLine (str "🚀 Starting Deep Research Agent"),
      StartupEvent.printLine (List.replicate 50 '='),
      StartupEvent.networkCall (str "graph.invoke") ]
  else
    StartupEvent.printLine (str "❌ Missing required environment variables:") ::
    ((missing_keys env).map (fun k => StartupEvent.printLine (str "   - " ++ k))
      ++ [StartupEvent.printLine (str "\nPlease set these in your .env file")]))

/-- The full startup trace of `python run_agent.py`: the import of the
graph module precedes `main()`. -/
def runAgentTrace (env : Str → Option Str) : List StartupEvent :=
  importGraphEvents ++ mainEvents env

/-- Detecting the environment check. -/
def isEnvCheck : StartupEvent → Bool
  | StartupEvent.envCheck _ => true
  | _ => false

/-- Detecting a client construction. -/
def isConstructClient : StartupEvent → Bool
  | StartupEvent.constructClient _ => true
  | _ => false

/-- The client constructions that precede the first environment check of a
trace. -/
def clientsBeforeCheck (tr : List StartupEvent) : List StartupEvent :=
  (tr.takeWhile (fun e => !isEnvCheck e)).filter isConstructClient

/-- C3 (counterexample): in an environment where `ANTHROPIC_API_KEY` is
unset (and `TAVILY_API_KEY` is set), the key is reported missing, yet three
key-requiring clients — the Tavily client and two Anthropic chat clients —
are constructed at import time, strictly before the environment check runs,
contradicting the claim that no client construction requiring a key is
attempted before the check. -/
theorem c3_counterexample :
    missing_keys (fun k => if k = str "TAVILY_API_KEY" then some (str "tvly-123") else Option.none)
      = [str "ANTHROPIC_API_KEY"] ∧
    missing_keys (fun k => if k = str "TAVILY_API_KEY" then some (str "tvly-123") else Option.none)
      ≠ [] ∧
    clientsBeforeCheck (runAgentTrace
        (fun k => if k = str "TAVILY_API_KEY" then some (str "tvly-123") else Option.none))
      = [ StartupEvent.constructClient (str "TavilyClient"),
          StartupEvent.constructClient (str "ChatAnthropic"),
          StartupEvent.constructClient (str "ChatAnthropic") ] ∧
    clientsBeforeCheck (runAgentTrace
        (fun k => if k = str "TAVILY_API_KEY" then some (str "tvly-123") else Option.none))
      ≠ [] := by
  refine ⟨by decide, by decide, by decide, by decide⟩

/-- C3 (amended): whenever at least one required variable is unset or
empty, `main()` halts after printing a deterministic, itemized error — the
header line followed by exactly one `"   - KEY"` line per missing variable,
in order, and the closing hint — and no network call occurs anywhere in the
startup trace; a variable is reported missing exactly when it is one of the
required keys and is unset or empty.  However, the model and search clients
are constructed at import time, before the check runs. -/
theorem c3_env_check_itemized_no_network :
    ∀ env : Str → Option Str,
      missing_keys env ≠ [] →
      mainEvents env =
        StartupEvent.envCheck (missing_keys env) ::
        StartupEvent.printLine (str "❌ Missing required environment variables:") ::
        ((missing_keys env).map (fun k => StartupEvent.printLine (str "   - " ++ k))
          ++ [StartupEvent.printLine (str "\nPlease set these in your .env file")]) ∧
      (∀ t : Str, StartupEvent.networkCall t ∉ runAgentTrace env) ∧
      (∀ k : Str, k ∈ missing_keys env ↔
        (k ∈ required_keys ∧ ((env k).getD []).isEmpty = true)) := by
  intro env hmissing
  have hne : (missing_keys env).isEmpty = false := by
    cases hm : missing_keys env with
    | nil => exact absurd hm hmissing
    | cons a rest => rfl
  refine ⟨?_, ?_, ?_⟩
  · unfold mainEvents
    rw [hne]
    rfl
  · intro t
    unfold runAgentTrace mainEvents
    rw [hne]
    simp [importGraphEvents]
  · intro k
    unfold missing_keys
    rw [List.mem_filter]

/-- C3 (witness): the amended statement applied to the concrete environment
missing `ANTHROPIC_API_KEY`. -/
theorem c3_env_check_itemized_no_network_witness :
    mainEvents (fun k => if k = str "TAVILY_API_KEY" then some (str "tvly-123") else Option.none) =
      StartupEvent.envCheck [str "ANTHROPIC_API_KEY"] ::
      StartupEvent.printLine (str "❌ Missing required environment variables:") ::
      [ StartupEvent.printLine (str "   - " ++ str "ANTHROPIC_API_KEY"),
        StartupEvent.printLine (str "\nPlease set these in your .env file") ] := by
  have h := (c3_env_check_itemized_no_network
    (fun k => if k = str "TAVILY_API_KEY" then some (str "tvly-123") else Option.none)
    (by decide)).1
  rw [h]
  decide
